import Mathlib

/-!
Shallow embedding of the InfoShield AI verification pipeline
(repository `Sanjeev-Kumar78/InfoShield_AI`), covering:

* `infoshield_ai/config.py` — keyword and source vocabularies, thresholds;
* `infoshield_ai/tools/credibility.py` — `calculate_credibility`;
* `infoshield_ai/tools/analyzer.py` — `analyze_query`;
* `infoshield_ai/tools/guardrails.py` — `validate_query`;
* `infoshield_ai/tools/human_review.py` — the CSV-backed review queue,
  modelled as a pure list of CSV rows threaded through each operation;
* `infoshield_ai/agents/runner.py` and `infoshield_ai/agent.py` — the
  post-processing step (score extraction, urgency estimate, escalation).

Strings are modelled over `List Char`; Python `str.lower`, `str.strip`
and the regex fragments used by the code are reproduced for the ASCII
character range (every vocabulary and pattern in the source is ASCII).
The regular expressions of the source are compiled by hand into
deterministic scanners; wherever a greedy sub-pattern is followed by a
disjoint character class the greedy maximal munch is exact, and the one
pattern where backtracking matters (`\s*[|\t]` in the score-extraction
regex) is implemented with an explicit descending backtracking loop.
Nondeterministic inputs of the real code (uuid session ids, timestamps)
are passed as explicit parameters, and the CSV file behind the human
review queue is modelled as the list of its data rows.  The file layout
is: all definitions first, then all theorems.
-/

namespace InfoShield

abbrev Chars := List Char

/-- Python whitespace class `\s` restricted to ASCII: space, tab,
newline, carriage return, vertical tab, form feed. -/
def isPySpace (c : Char) : Bool :=
  c == ' ' || c == '\t' || c == '\n' || c == '\r' || c == '\x0b' || c == '\x0c'

/-- Python `str.lower()` (ASCII model, via `Char.toLower`). -/
def lowerChars (s : Chars) : Chars := s.map Char.toLower

/-- Python `str.lower()` on `String`. -/
def lowerStr (s : String) : String := ⟨lowerChars s.data⟩

/-- Python `str.strip()` (ASCII whitespace model): drop leading and
trailing whitespace. -/
def pyStrip (s : Chars) : Chars :=
  ((s.dropWhile isPySpace).reverse.dropWhile isPySpace).reverse

/-- Occurrence of `needle` as a contiguous subsequence of the second
argument; implements Python `needle in hay` for strings. -/
def containsSeq (needle : Chars) : Chars → Bool
  | [] => needle.isEmpty
  | s@(_ :: t) => needle.isPrefixOf s || containsSeq needle t

/-- Python `needle in hay` on `String` values. -/
def strContains (hay needle : String) : Bool := containsSeq needle.data hay.data

/-- Python word character `\w` (ASCII model): letters, digits, underscore. -/
def isWordChar (c : Char) : Bool := c.isAlphanum || c == '_'

/-- Search a literal occurrence that is immediately followed by a
non-word character or the end of input (the trailing `\b` of a regex
such as `java\b`). -/
def litThenBoundary (lit : Chars) : Chars → Bool
  | [] => false
  | s@(_ :: t) =>
    (lit.isPrefixOf s &&
      (match s.drop lit.length with
       | [] => true
       | c :: _ => !isWordChar c)) || litThenBoundary lit t

/-- Scan for a literal occurrence such that every character skipped
before it is not a newline; implements searching `.*lit` after a fixed
prefix (Python `.` does not match `\n`). -/
def scanBeforeNl (lit : Chars) : Chars → Bool
  | [] => lit.isEmpty
  | s@(c :: t) => lit.isPrefixOf s || (c != '\n' && scanBeforeNl lit t)

namespace Config

/-- `config.py` — `DISASTER_KEYWORDS`. -/
def DISASTER_KEYWORDS : List String := [
  "flood", "flooding", "earthquake", "tsunami", "cyclone", "hurricane",
  "tornado", "wildfire", "fire", "landslide", "avalanche", "drought",
  "volcano", "eruption", "storm", "typhoon", "blizzard", "heatwave",
  "rescue", "emergency", "evacuation", "trapped", "help", "sos"]

/-- `config.py` — `OFFICIAL_SOURCES`. -/
def OFFICIAL_SOURCES : List String := [
  "un ocha", "red cross", "red crescent", "world meteorological organization",
  "international federation", "unicef", "who",
  "reuters", "ap news", "afp", "bbc", "cnn", "al jazeera",
  "accuweather", "weather.com", "weather underground",
  "ndrf", "ndma", "imd", "indian meteorological department", "india met",
  "sdma", "ddma", "ndtv", "times of india", "hindustan times",
  "fema", "nws", "national weather service", "noaa", "usgs",
  "national hurricane center", "storm prediction center",
  "met office", "environment agency", "bbc weather",
  "bureau of meteorology", "bom", "ses", "emergency victoria",
  "jma", "japan meteorological agency", "data.jma.go.jp", "jma.go.jp",
  "japan earthquake", "japan tsunami warning",
  "cma", "china meteorological administration",
  "eumetsat", "copernicus", "ecmwf",
  "pagasa", "ndrrmc", "philvolcs",
  "bmd", "bangladesh meteorological department",
  "government", "official", "ministry", "department",
  "meteorological", "seismological", "emergency management",
  "civil defense", "disaster management authority"]

/-- `config.py` — `URGENCY_THRESHOLD`. -/
def URGENCY_THRESHOLD : Int := 8

/-- `config.py` — `CREDIBILITY_THRESHOLD`. -/
def CREDIBILITY_THRESHOLD : Int := 60

end Config

namespace Credibility

/-- The sub-list of `OFFICIAL_SOURCES` counted as official in
`calculate_credibility` (`credibility.py`, line 66). -/
def officialNames : List String :=
  ["ndrf", "ndma", "fema", "government", "ministry", "official"]

/-- `credibility.py` — `recency_keywords`. -/
def recency_keywords : List String :=
  ["today", "now", "just", "breaking", "latest", "current", "ongoing"]

/-- `credibility.py` — `doubt_keywords`. -/
def doubt_keywords : List String :=
  ["unconfirmed", "rumor", "false", "fake", "hoax", "not true", "denied"]

/-- The dictionary returned by `calculate_credibility` (also
`models.py` — `CredibilityResult`). -/
structure CredibilityResult where
  score : Int
  reasoning : String
  sources_found : List String
  official_sources_count : Nat
  news_sources_count : Nat
deriving Repr, DecidableEq

/-- The loop of `calculate_credibility` collecting every vocabulary
source that occurs in the lower-cased summary or source list. -/
def sourcesFound (search_summary sources_mentioned : String) : List String :=
  Config.OFFICIAL_SOURCES.filter (fun src =>
    strContains (lowerStr search_summary) src
      || strContains (lowerStr sources_mentioned) src)

/-- Number of found sources that fall in the official sub-list. -/
def official_count (search_summary sources_mentioned : String) : Nat :=
  ((sourcesFound search_summary sources_mentioned).filter
    (fun s => officialNames.contains s)).length

/-- Number of found sources counted as news/reliable. -/
def news_count (search_summary sources_mentioned : String) : Nat :=
  ((sourcesFound search_summary sources_mentioned).filter
    (fun s => !officialNames.contains s)).length

/-- Recency rule of `calculate_credibility`: some recency keyword occurs
in the lower-cased summary. -/
def hasRecency (search_summary : String) : Bool :=
  recency_keywords.any (fun kw => strContains (lowerStr search_summary) kw)

/-- Location rule of `calculate_credibility`: the location is non-empty
(Python truthiness), not the literal "unknown", and occurs in the
lower-cased summary. -/
def locationConfirmed (location search_summary : String) : Bool :=
  location != "" && lowerStr location != "unknown"
    && strContains (lowerStr search_summary) (lowerStr location)

/-- Disaster-type rule of `calculate_credibility`: the declared type is
non-empty and occurs in the lower-cased summary. -/
def dtypeConfirmed (disaster_type search_summary : String) : Bool :=
  disaster_type != "" && strContains (lowerStr search_summary) (lowerStr disaster_type)

/-- Doubt rule of `calculate_credibility`: some doubt/denial keyword
occurs in the lower-cased summary. -/
def hasDoubt (search_summary : String) : Bool :=
  doubt_keywords.any (fun kw => strContains (lowerStr search_summary) kw)

/-- The additive score of `calculate_credibility` before clamping. -/
def rawScore (search_summary sources_mentioned location disaster_type : String) : Int :=
  (if 0 < official_count search_summary sources_mentioned then
      min 40 ((official_count search_summary sources_mentioned : Int) * 20) else 0)
  + (if 0 < news_count search_summary sources_mentioned then
      min 30 ((news_count search_summary sources_mentioned : Int) * 10) else 0)
  + (if hasRecency search_summary then 10 else 0)
  + (if locationConfirmed location search_summary then 10 else 0)
  + (if 3 ≤ (sourcesFound search_summary sources_mentioned).length then 10 else 0)
  + (if dtypeConfirmed disaster_type search_summary then 5 else 0)
  - (if hasDoubt search_summary then 30 else 0)

/-- The ordered reason strings of `calculate_credibility` that fired. -/
def reasonsList (search_summary sources_mentioned location disaster_type : String) :
    List String :=
  let oc := official_count search_summary sources_mentioned
  let nc := news_count search_summary sources_mentioned
  let op : Int := min 40 ((oc : Int) * 20)
  let np : Int := min 30 ((nc : Int) * 10)
  (if 0 < oc then [s!"Found {oc} official source(s) (+{op})"] else [])
  ++ (if 0 < nc then [s!"Found {nc} news/reliable source(s) (+{np})"] else [])
  ++ (if hasRecency search_summary then ["Recent/current event indicators (+10)"] else [])
  ++ (if locationConfirmed location search_summary then
        [s!"Location \x27{location}\x27 confirmed in sources (+10)"] else [])
  ++ (if 3 ≤ (sourcesFound search_summary sources_mentioned).length then
        ["Multiple sources corroborate (+10)"] else [])
  ++ (if dtypeConfirmed disaster_type search_summary then
        [s!"Disaster type \x27{disaster_type}\x27 confirmed (+5)"] else [])
  ++ (if hasDoubt search_summary then ["Found doubt/denial indicators (-30)"] else [])

/-- The `reasoning` string of `calculate_credibility`: semicolon-joined
fired rules, or a fixed sentence when none fired. -/
def reasoningOf (search_summary sources_mentioned location disaster_type : String) : String :=
  String.intercalate "; "
    (if (reasonsList search_summary sources_mentioned location disaster_type).isEmpty
     then ["No confirming sources found in search results"]
     else reasonsList search_summary sources_mentioned location disaster_type)

/-- `credibility.py` — `calculate_credibility`.  The score is the raw
additive score clamped to `[0, 100]`. -/
def calculate_credibility
    (search_summary sources_mentioned location disaster_type : String) :
    CredibilityResult :=
  ⟨max 0 (min 100 (rawScore search_summary sources_mentioned location disaster_type)),
   reasoningOf search_summary sources_mentioned location disaster_type,
   sourcesFound search_summary sources_mentioned,
   official_count search_summary sources_mentioned,
   news_count search_summary sources_mentioned⟩

end Credibility

namespace Analyzer

/-- `analyzer.py` — `panic_indicators`. -/
def panic_indicators : List String :=
  ["help", "sos", "emergency", "trapped", "dying", "drowning"]

/-- `analyzer.py` — `urgent_indicators`. -/
def urgent_indicators : List String :=
  ["now", "immediately", "urgent", "quickly", "asap", "!"]

/-- The dictionary returned by `analyze_query` (also `models.py` —
`QueryAnalysis`). -/
structure QueryAnalysis where
  sentiment : String
  urgency_score : Int
  location : String
  disaster_type : Option String
  is_emergency : Bool
  keywords_found : List String
deriving Repr, DecidableEq

/-- Disaster keywords of `config.py` found in the lower-cased query, in
vocabulary order. -/
def keywordsFound (query : String) : List String :=
  Config.DISASTER_KEYWORDS.filter (fun kw => strContains (lowerStr query) kw)

/-- Some panic indicator occurs in the lower-cased query. -/
def hasPanic (query : String) : Bool :=
  panic_indicators.any (fun ind => strContains (lowerStr query) ind)

/-- Some urgent indicator occurs in the lower-cased query. -/
def hasUrgent (query : String) : Bool :=
  urgent_indicators.any (fun ind => strContains (lowerStr query) ind)

/-- Python `query.count("!")` (on the original query). -/
def bangCount (query : String) : Nat := query.data.count '!'

/-- The urgency sum of `analyze_query` before clamping: base 3, +4 for a
panic indicator, +2 for an urgent indicator, +1 for two or more `!`,
plus the number of keywords found when positive. -/
def urgencyBase (query : String) : Int :=
  3 + (if hasPanic query then 4 else 0)
    + (if hasUrgent query then 2 else 0)
    + (if 2 ≤ bangCount query then 1 else 0)
    + (if 0 < (keywordsFound query).length then ((keywordsFound query).length : Int) else 0)

/-- The urgency score of `analyze_query`, clamped to `[1, 10]`. -/
def urgency_score (query : String) : Int := min 10 (max 1 (urgencyBase query))

/-- The sentiment ladder of `analyze_query`, driven by the clamped
urgency score, with the curious tie-break on `?` and zero keywords. -/
def sentimentOf (query : String) : String :=
  if 8 ≤ urgency_score query then "panic"
  else if 6 ≤ urgency_score query then "urgent"
  else if 4 ≤ urgency_score query then "concerned"
  else if strContains query "?" && (keywordsFound query).length == 0 then "curious"
  else "neutral"

/-- ASCII `[A-Z]`. -/
def isUpperAZ (c : Char) : Bool := decide ('A' ≤ c ∧ c ≤ 'Z')

/-- ASCII `[a-z]`. -/
def isLowerAZ (c : Char) : Bool := decide ('a' ≤ c ∧ c ≤ 'z')

/-- Regex fragment `[A-Z][a-z]+` matched at the head of the input;
returns the word and the remaining input. -/
def capWord (s : Chars) : Option (Chars × Chars) :=
  match s with
  | c :: rest =>
    if isUpperAZ c then
      match rest.span isLowerAZ with
      | (ls, rest2) => if ls.isEmpty then none else some (c :: ls, rest2)
    else none
  | [] => none

/-- Greedy loop for `(?:\s+[A-Z][a-z]+)*`: repeatedly consume whitespace
plus a capitalized word.  The following pattern parts never start with
whitespace or a capital, so maximal munch is exact. -/
def capPhraseLoop (fuel : Nat) (acc : Chars) (s : Chars) : Chars × Chars :=
  match fuel with
  | 0 => (acc, s)
  | fuel' + 1 =>
    let ws := s.takeWhile isPySpace
    if ws.isEmpty then (acc, s)
    else
      match capWord (s.drop ws.length) with
      | some (w, rest) => capPhraseLoop fuel' (acc ++ ws ++ w) rest
      | none => (acc, s)

/-- Regex fragment `[A-Z][a-z]+(?:\s+[A-Z][a-z]+)*` at the head of the
input (the capture group of the location patterns). -/
def capPhrase (s : Chars) : Option (Chars × Chars) :=
  match capWord s with
  | some (w, rest) => some (capPhraseLoop rest.length w rest)
  | none => none

/-- Match `lit\s+([A-Z][a-z]+(?:\s+[A-Z][a-z]+)*)` at the head of the
input and return the capture. -/
def prepPatternAt (lit : String) (s : Chars) : Option Chars :=
  if lit.data.isPrefixOf s then
    match s.drop lit.data.length with
    | c :: rest =>
      if isPySpace c then
        match capPhrase (rest.dropWhile isPySpace) with
        | some (p, _) => some p
        | none => none
      else none
    | [] => none
  else none

/-- `re.search` for one of the preposition location patterns of
`analyze_query` (`in|at|near|from` followed by a capitalized phrase):
try the pattern at every position, leftmost first. -/
def searchPrep (lit : String) : Chars → Option Chars
  | [] => none
  | s@(_ :: t) =>
    match prepPatternAt lit s with
    | some p => some p
    | none => searchPrep lit t

/-- The place-suffix vocabulary of the fifth location pattern. -/
def placeSuffixWords : List String := ["area", "region", "city", "town", "district"]

/-- Match `([A-Z][a-z]+(?:\s+[A-Z][a-z]+)*)\s+(?:area|region|city|town|district)`
at the head of the input and return the capture.  The suffix words are
lower-case while the greedy phrase only consumes capitalized words, so
no backtracking can occur. -/
def placePatternAt (s : Chars) : Option Chars :=
  match capPhrase s with
  | some (p, rest) =>
    match rest with
    | c :: _ =>
      if isPySpace c
          && placeSuffixWords.any (fun w => w.data.isPrefixOf (rest.dropWhile isPySpace))
      then some p else none
    | [] => none
  | none => none

/-- `re.search` for the place-suffix location pattern. -/
def searchPlace : Chars → Option Chars
  | [] => none
  | s@(_ :: t) =>
    match placePatternAt s with
    | some p => some p
    | none => searchPlace t

/-- The regex fallback of `analyze_query` for location extraction: the
five patterns tried in their fixed order, else "Unknown". -/
def locationFromRegex (query : String) : String :=
  match searchPrep "in" query.data with
  | some p => String.mk p
  | none =>
  match searchPrep "at" query.data with
  | some p => String.mk p
  | none =>
  match searchPrep "near" query.data with
  | some p => String.mk p
  | none =>
  match searchPrep "from" query.data with
  | some p => String.mk p
  | none =>
  match searchPlace query.data with
  | some p => String.mk p
  | none => "Unknown"

/-- The location rule of `analyze_query`: an inferred location that is
truthy and not the literal "unknown" (case-insensitive) is used
verbatim, otherwise the regex fallback. -/
def locationOf (query : String) (inferred_location : Option String) : String :=
  match inferred_location with
  | some il =>
    if il != "" && lowerStr il != "unknown" then il else locationFromRegex query
  | none => locationFromRegex query

/-- `analyzer.py` — `disaster_mapping` (insertion order of the Python
dict). -/
def disaster_mapping : List (String × List String) := [
  ("flood", ["flood", "flooding", "water entering"]),
  ("earthquake", ["earthquake", "quake", "tremor", "seismic"]),
  ("tsunami", ["tsunami", "tidal wave"]),
  ("cyclone", ["cyclone", "hurricane", "typhoon", "storm"]),
  ("fire", ["fire", "wildfire", "blaze", "burning"]),
  ("landslide", ["landslide", "mudslide", "debris"])]

/-- The disaster-type rule of `analyze_query`: first mapping entry whose
keywords intersect the lower-cased query. -/
def disasterTypeOf (query : String) : Option String :=
  (disaster_mapping.find? (fun p =>
    p.2.any (fun kw => strContains (lowerStr query) kw))).map (fun p => p.1)

/-- `analyzer.py` — `analyze_query`. -/
def analyze_query (query : String) (inferred_location : Option String) : QueryAnalysis :=
  ⟨sentimentOf query,
   urgency_score query,
   locationOf query inferred_location,
   disasterTypeOf query,
   decide (8 ≤ urgency_score query) || hasPanic query,
   keywordsFound query⟩

end Analyzer

namespace Guardrails

/-- `guardrails.py` — `DISASTER_KEYWORDS` (the guardrail vocabulary,
distinct from the one in `config.py`). -/
def DISASTER_KEYWORDS : List String := [
  "flood", "flooding", "earthquake", "quake", "tsunami", "cyclone", "hurricane",
  "typhoon", "tornado", "storm", "wildfire", "fire", "landslide", "mudslide",
  "avalanche", "drought", "heatwave", "blizzard", "volcanic", "eruption",
  "emergency", "disaster", "crisis", "evacuation", "rescue", "relief",
  "casualty", "casualties", "damage", "destroyed", "collapse", "trapped",
  "heavy rain", "severe weather", "warning", "alert", "red alert", "orange alert",
  "safe", "safety", "danger", "dangerous", "risk", "hazard", "threat",
  "is there", "is it true", "happening", "real", "fake", "rumor", "hoax",
  "verify", "confirm", "true or false", "fact check",
  "in india", "in japan", "in usa", "in california", "in tokyo", "in chennai",
  "in mumbai", "in delhi", "near", "around"]

/-- The dictionary returned by `validate_query`. -/
structure ValidationResult where
  is_valid : Bool
  reason : String
  category : String
deriving Repr, DecidableEq

/-- Off-topic regex 1, `^\d+\s*[\+\-\*\/]\s*\d+`: digits, optional
whitespace, an arithmetic operator, optional whitespace, a digit, all
anchored at the start.  Every greedy piece is followed by a disjoint
class, so maximal munch is exact. -/
def mathPattern (s : Chars) : Bool :=
  match s.span Char.isDigit with
  | (ds, r1) =>
    !ds.isEmpty &&
      (match r1.dropWhile isPySpace with
       | c :: r3 =>
         (c == '+' || c == '-' || c == '*' || c == '/') &&
           (match (r3.dropWhile isPySpace).head? with
            | some d => d.isDigit
            | none => false)
       | [] => false)

/-- Anchored alternation `^(lit|...)`: some alternative is a prefix. -/
def anyLitPrefix (lits : List String) (s : Chars) : Bool :=
  lits.any (fun l => l.data.isPrefixOf s)

/-- Unanchored alternation `(lit|...)`: some alternative occurs. -/
def anyLitInside (lits : List String) (s : Chars) : Bool :=
  lits.any (fun l => containsSeq l.data s)

/-- Off-topic regex 4, `(code|programming|python|javascript|java\b)`. -/
def codingPattern (s : Chars) : Bool :=
  anyLitInside ["code", "programming", "python", "javascript"] s
    || litThenBoundary "java".data s

/-- `guardrails.py` — `OFF_TOPIC_PATTERNS`, in source order. -/
def matchesOffTopic (s : Chars) : Bool :=
  mathPattern s
  || anyLitPrefix ["what is", "define", "explain", "how to", "tutorial"] s
  || anyLitInside ["documentation", "docs", "api reference", "library"] s
  || codingPattern s
  || anyLitInside ["recipe", "cook", "food", "restaurant"] s
  || anyLitInside ["movie", "music", "song", "game", "sport"] s
  || anyLitInside ["stock", "crypto", "bitcoin", "investment"] s
  || anyLitInside ["joke", "funny", "meme"] s
  || anyLitPrefix ["hi", "hello", "hey", "good morning", "good evening"] s
  || anyLitInside ["who are you", "what are you", "your name"] s
  || anyLitInside ["weather forecast", "temperature tomorrow"] s

/-- Match a literal, then `\s+`, then continue; `none` when the literal
or the mandatory whitespace is missing.  Maximal munch on `\s+` is exact
because every continuation below starts with a non-space character. -/
def litWs (lit : String) (s : Chars) : Option Chars :=
  if lit.data.isPrefixOf s then
    match s.drop lit.data.length with
    | c :: rest => if isPySpace c then some (rest.dropWhile isPySpace) else none
    | [] => none
  else none

/-- Tech regex 1, `how\s+to\s+(deploy|install|build|set\s*up)`, matched
at the head of the input. -/
def techHowToAt (s : Chars) : Bool :=
  match litWs "how" s with
  | some r1 =>
    (match litWs "to" r1 with
     | some r2 =>
       anyLitPrefix ["deploy", "install", "build"] r2
         || ("set".data.isPrefixOf r2
              && "up".data.isPrefixOf ((r2.drop 3).dropWhile isPySpace))
     | none => false)
  | none => false

/-- Tech regex 2, `deploy(ing)?\s+(adk|agent|model|app|application|service)`,
matched at the head of the input; both branches of the optional group
are tried. -/
def techDeployAt (s : Chars) : Bool :=
  if "deploy".data.isPrefixOf s then
    let afterDeploy := s.drop 6
    let tails := (if "ing".data.isPrefixOf afterDeploy then [afterDeploy.drop 3] else [])
      ++ [afterDeploy]
    tails.any (fun t =>
      match t with
      | c :: rest =>
        isPySpace c
          && anyLitPrefix ["adk", "agent", "model", "app", "application", "service"]
               (rest.dropWhile isPySpace)
      | [] => false)
  else false

/-- The word alternatives of tech regex 3; `cloud\s*run` is handled
separately. -/
def techWords : List String :=
  ["adk", "sdk", "docker", "dockerfile", "railway", "vercel", "github", "gitlab"]

/-- Remainders after matching some alternative of tech regex 3 at the
head of the input (all alternatives are kept, since the trailing `\b`
may reject some of them). -/
def techWordTails (s : Chars) : List Chars :=
  (techWords.filterMap (fun l =>
    if l.data.isPrefixOf s then some (s.drop l.data.length) else none))
  ++ (if "cloud".data.isPrefixOf s
          && "run".data.isPrefixOf ((s.drop 5).dropWhile isPySpace)
      then [((s.drop 5).dropWhile isPySpace).drop 3] else [])

/-- Tech regex 3, `\b(adk|sdk|docker|dockerfile|railway|vercel|cloud\s*run|github|gitlab)\b`:
scan every position carrying the previous character for the leading
word boundary; every alternative starts and ends with a word character,
so the boundaries reduce to the neighbours being non-word. -/
def techWordScan (prev : Option Char) : Chars → Bool
  | [] => false
  | s@(c :: t) =>
    ((match prev with
      | none => true
      | some p => !isWordChar p)
      && (techWordTails s).any (fun r =>
           match r with
           | [] => true
           | d :: _ => !isWordChar d))
    || techWordScan (some c) t

/-- Tech regex 4, `code\s+(sample|snippet|example)`, at the head. -/
def techCodeAt (s : Chars) : Bool :=
  match litWs "code" s with
  | some r => anyLitPrefix ["sample", "snippet", "example"] r
  | none => false

/-- Tech regex 5, `(write|generate)\s+code`, at the head. -/
def techWriteAt (s : Chars) : Bool :=
  (match litWs "write" s with
   | some r => "code".data.isPrefixOf r
   | none => false)
  || (match litWs "generate" s with
      | some r => "code".data.isPrefixOf r
      | none => false)

/-- Tech regex 6, `(api\s+key|api\s+keys)`, at the head; the first
alternative already covers the second. -/
def techApiKeyAt (s : Chars) : Bool :=
  match litWs "api" s with
  | some r => "key".data.isPrefixOf r
  | none => false

/-- Tech regex 7, `(documentation|docs|tutorial|guide)\s+(for|about)`,
at the head. -/
def techDocsAt (s : Chars) : Bool :=
  ["documentation", "docs", "tutorial", "guide"].any (fun l =>
    match litWs l s with
    | some r => anyLitPrefix ["for", "about"] r
    | none => false)

/-- Tech regex 8, `install\s+(the\s+)?dependencies`, at the head; both
branches of the optional group are tried. -/
def techInstallAt (s : Chars) : Bool :=
  match litWs "install" s with
  | some r =>
    "dependencies".data.isPrefixOf r
      || (match litWs "the" r with
          | some r2 => "dependencies".data.isPrefixOf r2
          | none => false)
  | none => false

/-- `re.search` of a head-matcher: try every position. -/
def searchHead (p : Chars → Bool) : Chars → Bool
  | [] => p []
  | s@(_ :: t) => p s || searchHead p t

/-- `guardrails.py` — `TECH_OR_DEV_PATTERNS`, in source order. -/
def matchesTechOrDev (s : Chars) : Bool :=
  searchHead techHowToAt s
  || searchHead techDeployAt s
  || techWordScan none s
  || searchHead techCodeAt s
  || searchHead techWriteAt s
  || searchHead techApiKeyAt s
  || searchHead techDocsAt s
  || searchHead techInstallAt s

/-- `guardrails.py` — `location_indicators` substring check. -/
def hasLocationIndicator (s : Chars) : Bool :=
  ["in", "at", "near", "around", "happening"].any (fun l => containsSeq l.data s)

/-- Situation regex `\?$`: a `?` at the end, or just before a final
newline (Python `$` without MULTILINE). -/
def endsWithQuestion (s : Chars) : Bool :=
  match s.reverse with
  | '?' :: _ => true
  | '\n' :: '?' :: _ => true
  | _ => false

/-- Situation regex `^what.*happening` (`.` does not match `\n`). -/
def whatHappening (s : Chars) : Bool :=
  "what".data.isPrefixOf s && scanBeforeNl "happening".data (s.drop 4)

/-- `guardrails.py` — `situation_patterns`, in source order. -/
def isSituationQuery (s : Chars) : Bool :=
  endsWithQuestion s
  || (match s with
      | 'i' :: 's' :: c :: _ => isPySpace c
      | _ => false)
  || (match s with
      | 'a' :: 'r' :: 'e' :: c :: _ => isPySpace c
      | _ => false)
  || whatHappening s
  || anyLitInside ["situation", "status", "update", "news", "report"] s

/-- Rejection reason of the too-short branch. -/
def shortReason : String :=
  "Query is too short. Please provide more details about the disaster situation you want to verify."

/-- Rejection reason of the off-topic branch. -/
def offTopicReason : String :=
  "I\x27m InfoShield AI, specialized in disaster information verification. I can help you verify disaster reports, check emergency situations, and provide safety information. Please ask about a specific disaster or emergency situation."

/-- Rejection reason of the technical/deployment branch. -/
def techReason : String :=
  "I can\x27t switch to development or deployment support. Please keep the conversation focused on verifying an actual disaster situation."

/-- Rejection reason of the final unclear branch. -/
def unclearReason : String :=
  "I\x27m InfoShield AI, designed specifically for disaster information verification. I can help you:\n\n• Verify disaster reports (floods, earthquakes, fires, storms)\n• Check emergency situations in specific locations\n• Assess the credibility of disaster-related news\n• Provide safety information during emergencies\n\nPlease ask about a specific disaster or emergency situation you\x27d like me to verify."

/-- Python `query.lower().strip()` as computed by `validate_query`. -/
def queryLower (query : String) : Chars := pyStrip (lowerChars query.data)

/-- `guardrails.py` — `validate_query`: lower-case and strip, then the
six ordered policy checks. -/
def validate_query (query : String) : ValidationResult :=
  if (queryLower query).length < 5 then
    ⟨false, shortReason, "unclear"⟩
  else if matchesOffTopic (queryLower query) then
    ⟨false, offTopicReason, "off_topic"⟩
  else if matchesTechOrDev (queryLower query) then
    ⟨false, techReason, "off_topic"⟩
  else if DISASTER_KEYWORDS.any (fun kw => containsSeq kw.data (queryLower query)) then
    ⟨true, "Query is disaster-related", "disaster"⟩
  else if hasLocationIndicator (queryLower query) && isSituationQuery (queryLower query) then
    ⟨true, "Query appears to be about a situation at a location", "disaster"⟩
  else
    ⟨false, unclearReason, "unclear"⟩

end Guardrails

namespace HumanReview

/-- `models.py` — `HumanReviewEntry.csv_headers`. -/
def csv_headers : List String :=
  ["session_id", "query", "location", "urgency_score",
   "credibility_score", "timestamp", "status", "reviewer_notes"]

/-- `models.py` — `HumanReviewEntry`.  The `timestamp` default
(`datetime.now().isoformat()`) is passed explicitly. -/
structure HumanReviewEntry where
  session_id : String
  query : String
  location : String
  urgency_score : Int
  credibility_score : Int
  timestamp : String
  status : String
  reviewer_notes : String
deriving Repr, DecidableEq

/-- `models.py` — `HumanReviewEntry.to_csv_row`:  the integer fields are
stringified with Python `str`, which agrees with `Int.toString`. -/
def HumanReviewEntry.to_csv_row (e : HumanReviewEntry) : List String :=
  [e.session_id, e.query, e.location, toString e.urgency_score,
   toString e.credibility_score, e.timestamp, e.status, e.reviewer_notes]

/-- The CSV store behind the queue, modelled as its list of data rows
(the header row is the constant `csv_headers` and is kept implicit). -/
abbrev Store := List (List String)

/-- The dictionary returned by `save_for_human_review`. -/
structure SaveResult where
  session_id : String
  status : String
  message : String
  estimated_review_time : String
deriving Repr, DecidableEq

/-- The review-time estimate of `save_for_human_review`. -/
def reviewTime (urgency_score : Int) : String :=
  if 8 ≤ urgency_score then "within 15 minutes"
  else if 5 ≤ urgency_score then "within 1 hour"
  else "within 24 hours"

/-- `human_review.py` — `save_for_human_review`, modelled on the pure
store.  The uuid-generated session id (`IS-` plus 8 hex characters) and
the timestamp are passed as parameters; the file append becomes a list
append of the entry row, and the success path is modelled (the
exception path of the real code only reports I/O failures). -/
def save_for_human_review (query location : String)
    (urgency_score credibility_score : Int)
    (session_id timestamp : String) (store : Store) : SaveResult × Store :=
  let entry : HumanReviewEntry :=
    ⟨session_id, query, location, urgency_score, credibility_score,
     timestamp, "pending", ""⟩
  (⟨session_id, "saved",
    s!"Query saved for human verification. Your reference ID is {session_id}.",
    reviewTime urgency_score⟩,
   store ++ [entry.to_csv_row])

/-- The dictionary returned by `get_pending_reviews`. -/
structure ReviewList where
  count : Nat
  entries : Store
  status : String
deriving Repr, DecidableEq

/-- Python `row.get("status", "pending")` through `csv.DictReader`:
field 6 of the row, defaulting when the row is short. -/
def rowStatus (row : List String) : String := (row.get? 6).getD "pending"

/-- Python `row.get("session_id") == session_id`: `None` compares
unequal to any string. -/
def rowMatchesSid (session_id : String) (row : List String) : Bool :=
  match row.get? 0 with
  | some v => v == session_id
  | none => false

/-- `human_review.py` — `get_pending_reviews`, modelled on the pure
store: keep the rows whose status matches the filter, or all rows for
the filter "all". -/
def get_pending_reviews (status_filter : String) (store : Store) : ReviewList :=
  let entries := store.filter (fun row =>
    status_filter == "all" || rowStatus row == status_filter)
  ⟨entries.length, entries, "success"⟩

/-- The dictionary returned by `update_review_status`. -/
structure UpdateResult where
  status : String
  message : String
deriving Repr, DecidableEq

/-- `human_review.py` — `update_review_status`, modelled on the pure
store.  The read loop maps every matching row to one with its status
and reviewer-notes fields replaced while recording whether any row
matched; the write-back happens only when a row matched, so a missing
session id returns the error result and leaves the store unchanged. -/
def update_review_status (session_id new_status reviewer_notes : String)
    (store : Store) : UpdateResult × Store :=
  let entries := store.map (fun row =>
    if rowMatchesSid session_id row
    then (row.set 6 new_status).set 7 reviewer_notes
    else row)
  if store.any (rowMatchesSid session_id) then
    (⟨"success", s!"Updated {session_id} to status: {new_status}"⟩, entries)
  else
    (⟨"error", s!"Session ID {session_id} not found"⟩, store)

end HumanReview

namespace Runner

/-- Parse a digit run as a natural number. -/
def digitsToNat (ds : Chars) : Nat :=
  ds.foldl (fun n c => n * 10 + (c.toNat - 48)) 0

/-- Tail of extraction pattern 1 after the literal: `\s*[|\t]\s*(\d+)/100`
with the class given by `allowTab`.  `\t` is both whitespace and in the
class, so the greedy `\s*` genuinely backtracks: `k` counts the
whitespace characters consumed, tried from the maximal run downwards
exactly as the regex engine does. -/
def pipeAttemptAt (allowTab : Bool) (s : Chars) (k : Nat) : Option Nat :=
  match s.drop k with
  | c :: rest =>
    if c == '|' || (allowTab && c == '\t') then
      match (rest.dropWhile isPySpace).span Char.isDigit with
      | (ds, rest3) =>
        if !ds.isEmpty && "/100".data.isPrefixOf rest3
        then some (digitsToNat ds) else none
    else none
  | [] => none

/-- Descending backtracking loop over the whitespace consumption `k`. -/
def pipeTailTry (allowTab : Bool) (s : Chars) : Nat → Option Nat
  | 0 => pipeAttemptAt allowTab s 0
  | k + 1 =>
    match pipeAttemptAt allowTab s (k + 1) with
    | some n => some n
    | none => pipeTailTry allowTab s k

/-- Search `credibility score\s*[|\t]\s*(\d+)/100` (patterns 1 and 2 of
`_extract_credibility_score`; pattern 2 restricts the class to `|`).
The input is the lower-cased response, implementing `re.IGNORECASE`. -/
def searchPipePattern (allowTab : Bool) : Chars → Option Nat
  | [] => none
  | s@(_ :: t) =>
    match (if "credibility score".data.isPrefixOf s
           then pipeTailTry allowTab (s.drop 17) ((s.drop 17).takeWhile isPySpace).length
           else none) with
    | some n => some n
    | none => searchPipePattern allowTab t

/-- Character class `[:\s]`. -/
def isColonWs (c : Char) : Bool := c == ':' || isPySpace c

/-- Tail `[:\s]+(\d+)` after a literal, with `requireSlash100` adding
the trailing `/100` of pattern 3.  `[:\s]+` is followed by a digit and
`\d+` by `/` or the pattern end, so maximal munch is exact. -/
def colonDigits (requireSlash100 : Bool) (s : Chars) : Option Nat :=
  match s with
  | c :: rest =>
    if isColonWs c then
      match (rest.dropWhile isColonWs).span Char.isDigit with
      | (ds, rest3) =>
        if !ds.isEmpty && (!requireSlash100 || "/100".data.isPrefixOf rest3)
        then some (digitsToNat ds) else none
    else none
  | [] => none

/-- Search `score[:\s]+(\d+)/100` (pattern 3) on the lower-cased
response. -/
def searchScoreSlash : Chars → Option Nat
  | [] => none
  | s@(_ :: t) =>
    match (if "score".data.isPrefixOf s then colonDigits true (s.drop 5) else none) with
    | some n => some n
    | none => searchScoreSlash t

/-- Search `credibility[:\s]+(\d+)` (pattern 4) on the lower-cased
response. -/
def searchCredibilityColon : Chars → Option Nat
  | [] => none
  | s@(_ :: t) =>
    match (if "credibility".data.isPrefixOf s then colonDigits false (s.drop 11) else none) with
    | some n => some n
    | none => searchCredibilityColon t

/-- Match `(\d+)/100.*credibility` (pattern 5) at the head of the input:
a maximal digit run (any shorter munch is followed by a digit, not `/`,
so maximal munch is exact), the literal `/100`, then `credibility`
somewhere later on the same line. -/
def slashCredAt (s : Chars) : Option Nat :=
  match s.span Char.isDigit with
  | (ds, rest) =>
    if !ds.isEmpty && "/100".data.isPrefixOf rest
        && scanBeforeNl "credibility".data (rest.drop 4)
    then some (digitsToNat ds) else none

/-- Search pattern 5 on the lower-cased response. -/
def searchSlashCred : Chars → Option Nat
  | [] => none
  | s@(_ :: t) =>
    match slashCredAt s with
    | some n => some n
    | none => searchSlashCred t

/-- `agents/runner.py` (and identically `agent.py`) —
`_extract_credibility_score`: the five regex patterns tried in order,
each with `re.search` and `re.IGNORECASE` (implemented by lower-casing
the response, which leaves digits and separators unchanged). -/
def _extract_credibility_score (response : String) : Option Int :=
  let rl := lowerChars response.data
  match searchPipePattern true rl with
  | some n => some (n : Int)
  | none =>
  match searchPipePattern false rl with
  | some n => some (n : Int)
  | none =>
  match searchScoreSlash rl with
  | some n => some (n : Int)
  | none =>
  match searchCredibilityColon rl with
  | some n => some (n : Int)
  | none =>
  match searchSlashCred rl with
  | some n => some (n : Int)
  | none => none

/-- Splitting loop: accumulate the current word (reversed) and emit it
at each whitespace run or at the end. -/
def splitWsGo (acc : Chars) : Chars → List String
  | [] => if acc.isEmpty then [] else [⟨acc.reverse⟩]
  | c :: t =>
    if isPySpace c then
      if acc.isEmpty then splitWsGo [] t else ⟨acc.reverse⟩ :: splitWsGo [] t
    else splitWsGo (c :: acc) t

/-- Python `str.split()` (split on whitespace runs, dropping empty
pieces). -/
def pySplitWs (s : String) : List String := splitWsGo [] s.data

/-- Python `str.strip(\x27?.,!\x27)`. -/
def stripPunct (s : String) : String :=
  let isP : Char → Bool := fun c => c == '?' || c == '.' || c == ',' || c == '!'
  ⟨((s.data.dropWhile isP).reverse.dropWhile isP).reverse⟩

/-- The scan loop of `_extract_location`: first word equal to
`in`/`at`/`near` (lower-cased) that is not the last word; the location
is the next two words joined by a space, stripped of `?.,!`. -/
def extractLocLoop : List String → String
  | [] => "Unknown"
  | w :: rest =>
    if (lowerStr w == "in" || lowerStr w == "at" || lowerStr w == "near")
        && !rest.isEmpty
    then stripPunct (String.intercalate " " (rest.take 2))
    else extractLocLoop rest

/-- `agents/runner.py` (and identically `agent.py`) — `_extract_location`. -/
def _extract_location (query : String) : String :=
  extractLocLoop (pySplitWs query)

/-- The urgency-estimate keyword list of `MultiAgentRunner.process_query_async`
(`agents/runner.py`, line 230): only three keywords. -/
def multiAgentUrgencyKeywords : List String := ["emergency", "help", "urgent"]

/-- The urgency estimate of `MultiAgentRunner.process_query_async`. -/
def multiAgentUrgency (query : String) : Int :=
  if multiAgentUrgencyKeywords.any (fun kw => strContains (lowerStr query) kw)
  then 8 else 5

/-- The urgency-estimate keyword list of `InfoShieldRunner.process_query_async`
(`agent.py`, lines 473-474): five keywords. -/
def singleRunnerUrgencyKeywords : List String :=
  ["emergency", "urgent", "help", "trapped", "sos"]

/-- The urgency estimate of `InfoShieldRunner.process_query_async`. -/
def singleRunnerUrgency (query : String) : Int :=
  if singleRunnerUrgencyKeywords.any (fun kw => strContains (lowerStr query) kw)
  then 8 else 5

/-- The human-review info assembled by the runner on a successful save. -/
structure HumanReviewInfo where
  session_id : String
  review_time : String
deriving Repr, DecidableEq

/-- The post-processing step of `MultiAgentRunner.process_query_async`
(`agents/runner.py`, lines 223-260), modelled on the pure store: extract
the credibility score from the final response; when review is enabled
and the score is present and below `CREDIBILITY_THRESHOLD`, derive the
location and urgency estimate and call the queue's save operation.  The
session id and timestamp consumed by the save are passed as parameters;
the rewriting of the response text (notice appending) carries no state
and is omitted. -/
def multiAgentPostProcess (enable_human_review : Bool)
    (query final_response session_id timestamp : String)
    (store : HumanReview.Store) :
    Option HumanReviewInfo × HumanReview.Store :=
  match _extract_credibility_score final_response with
  | none => (none, store)
  | some credibility_score =>
    if enable_human_review then
      if credibility_score < Config.CREDIBILITY_THRESHOLD then
        match HumanReview.save_for_human_review query (_extract_location query)
            (multiAgentUrgency query) credibility_score session_id timestamp store with
        | (review_result, store2) =>
          if review_result.status == "saved" then
            (some ⟨review_result.session_id, review_result.estimated_review_time⟩, store2)
          else (none, store2)
      else (none, store)
    else (none, store)

end Runner

/-! Helper lemmas about the string model. -/

theorem containsSeq_spec {n h : Chars} : containsSeq n h = true ↔ n <:+: h := by
  induction h with
  | nil =>
    simp only [containsSeq, List.isEmpty_iff]
    constructor
    · rintro rfl; exact List.infix_refl _
    · intro hinf; exact List.eq_nil_of_infix_nil hinf
  | cons c t ih =>
    simp only [containsSeq, Bool.or_eq_true, List.isPrefixOf_iff_prefix, ih,
      List.infix_cons_iff]

theorem containsSeq_append_right {n h : Chars} (r : Chars)
    (hn : containsSeq n h = true) : containsSeq n (h ++ r) = true := by
  rw [containsSeq_spec] at hn ⊢
  obtain ⟨u, v, rfl⟩ := hn
  exact ⟨u, v ++ r, by simp⟩

theorem containsSeq_suffix (n x : Chars) : containsSeq n (x ++ n) = true := by
  rw [containsSeq_spec]
  exact (List.suffix_append x n).isInfix

theorem data_append (a b : String) : (a ++ b).data = a.data ++ b.data := rfl

theorem strContains_append {hay needle : String} (r : String)
    (h : strContains hay needle = true) : strContains (hay ++ r) needle = true := by
  unfold strContains at h ⊢
  rw [data_append]
  exact containsSeq_append_right r.data h

theorem lowerStr_append (a b : String) : lowerStr (a ++ b) = lowerStr a ++ lowerStr b := by
  unfold lowerStr lowerChars
  apply congrArg String.mk
  rw [data_append, List.map_append]

theorem strContains_lower_append {q kw : String} (r : String)
    (h : strContains (lowerStr q) kw = true) :
    strContains (lowerStr (q ++ r)) kw = true := by
  rw [lowerStr_append]
  exact strContains_append (lowerStr r) h

theorem anyContains_lower_append {L : List String} {q : String} (r : String)
    (h : L.any (fun kw => strContains (lowerStr q) kw) = true) :
    L.any (fun kw => strContains (lowerStr (q ++ r)) kw) = true := by
  rw [List.any_eq_true] at h ⊢
  obtain ⟨kw, hm, hc⟩ := h
  exact ⟨kw, hm, strContains_lower_append r hc⟩

theorem ite_le_ite_of_imp {b c : Bool} {x : Int} (hx : 0 ≤ x)
    (h : b = true → c = true) :
    (if b then x else 0) ≤ (if c then x else 0) := by
  cases b with
  | false => cases c <;> simp [hx]
  | true => rw [h rfl]

/-! Credibility scorer: helper lemmas. -/

namespace Credibility

theorem calculate_credibility_score (ss sm loc dt : String) :
    (calculate_credibility ss sm loc dt).score
      = max 0 (min 100 (rawScore ss sm loc dt)) := rfl

/-- Every doubt keyword is already lower-case. -/
theorem lower_doubt_keyword {d : String} (hd : d ∈ doubt_keywords) : lowerStr d = d := by
  fin_cases hd <;> rfl

/-- Appending a doubt keyword to the summary makes the doubt rule fire. -/
theorem hasDoubt_append {ss d : String} (hd : d ∈ doubt_keywords) :
    hasDoubt (ss ++ d) = true := by
  unfold hasDoubt
  rw [List.any_eq_true]
  refine ⟨d, hd, ?_⟩
  rw [lowerStr_append, lower_doubt_keyword hd]
  unfold strContains
  rw [data_append]
  exact containsSeq_suffix d.data (lowerStr ss).data

end Credibility

/-- Claim C1: `calculate_credibility` on the summary "NDRF confirms
flooding today in Chennai. Reuters reports heavy rain.", sources
"ndrf, reuters", location "Chennai" and disaster type "flood" returns
score 55, one official source, one news source, and exactly the two
sources `reuters` and `ndrf`, so the three-source corroboration bonus
does not fire. -/
theorem credibility_chennai_flood_scenario :
    (Credibility.calculate_credibility
        "NDRF confirms flooding today in Chennai. Reuters reports heavy rain."
        "ndrf, reuters" "Chennai" "flood").score = 55 ∧
    (Credibility.calculate_credibility
        "NDRF confirms flooding today in Chennai. Reuters reports heavy rain."
        "ndrf, reuters" "Chennai" "flood").official_sources_count = 1 ∧
    (Credibility.calculate_credibility
        "NDRF confirms flooding today in Chennai. Reuters reports heavy rain."
        "ndrf, reuters" "Chennai" "flood").news_sources_count = 1 ∧
    (Credibility.calculate_credibility
        "NDRF confirms flooding today in Chennai. Reuters reports heavy rain."
        "ndrf, reuters" "Chennai" "flood").sources_found = ["reuters", "ndrf"] ∧
    (Credibility.calculate_credibility
        "NDRF confirms flooding today in Chennai. Reuters reports heavy rain."
        "ndrf, reuters" "Chennai" "flood").sources_found.length = 2 := by
  decide

/-- Claim C5: the credibility score is always in `[0, 100]`; and
appending a doubt keyword to a summary that has none — in a way that
leaves every other scoring signal unchanged — strictly decreases the
score or leaves it at the floor 0. -/
theorem credibility_bounds_and_doubt_penalty :
    (∀ ss sm loc dt : String,
      0 ≤ (Credibility.calculate_credibility ss sm loc dt).score ∧
      (Credibility.calculate_credibility ss sm loc dt).score ≤ 100) ∧
    (∀ ss sm loc dt d : String, d ∈ Credibility.doubt_keywords →
      Credibility.hasDoubt ss = false →
      Credibility.sourcesFound (ss ++ d) sm = Credibility.sourcesFound ss sm →
      Credibility.hasRecency (ss ++ d) = Credibility.hasRecency ss →
      Credibility.locationConfirmed loc (ss ++ d) = Credibility.locationConfirmed loc ss →
      Credibility.dtypeConfirmed dt (ss ++ d) = Credibility.dtypeConfirmed dt ss →
      ((Credibility.calculate_credibility (ss ++ d) sm loc dt).score
          < (Credibility.calculate_credibility ss sm loc dt).score ∨
        (Credibility.calculate_credibility (ss ++ d) sm loc dt).score = 0)) := by
  constructor
  · intro ss sm loc dt
    rw [Credibility.calculate_credibility_score]
    omega
  · intro ss sm loc dt d hd hnd hsrc hrec hloc hdt
    have hdub : Credibility.hasDoubt (ss ++ d) = true := Credibility.hasDoubt_append hd
    have hoc : Credibility.official_count (ss ++ d) sm = Credibility.official_count ss sm := by
      unfold Credibility.official_count
      rw [hsrc]
    have hnc : Credibility.news_count (ss ++ d) sm = Credibility.news_count ss sm := by
      unfold Credibility.news_count
      rw [hsrc]
    rw [Credibility.calculate_credibility_score, Credibility.calculate_credibility_score]
    have hraw : Credibility.rawScore (ss ++ d) sm loc dt
        = Credibility.rawScore ss sm loc dt - 30 := by
      unfold Credibility.rawScore
      rw [hoc, hnc, hsrc, hrec, hloc, hdt, hdub, hnd]
      simp
    rw [hraw]
    have h1 : (0 : Int) ≤ (Credibility.official_count ss sm : Int) := Int.natCast_nonneg _
    have h2 : (0 : Int) ≤ (Credibility.news_count ss sm : Int) := Int.natCast_nonneg _
    have hub : Credibility.rawScore ss sm loc dt ≤ 105 := by
      unfold Credibility.rawScore
      rw [hnd]
      simp only [Bool.false_eq_true, if_false]
      split_ifs <;> omega
    have hlb : 0 ≤ Credibility.rawScore ss sm loc dt := by
      unfold Credibility.rawScore
      rw [hnd]
      simp only [Bool.false_eq_true, if_false]
      split_ifs <;> omega
    omega

/-- Witness for C5 at concrete inputs: score bounds at one input, and
the strict decrease when appending the doubt keyword `denied` to a
summary naming three sources and a recency marker. -/
theorem credibility_bounds_and_doubt_penalty_witness :
    (0 ≤ (Credibility.calculate_credibility "ndrf reuters bbc say today" "" "" "").score ∧
      (Credibility.calculate_credibility "ndrf reuters bbc say today" "" "" "").score ≤ 100) ∧
    ((Credibility.calculate_credibility ("ndrf reuters bbc say today" ++ "denied") "" "" "").score
        < (Credibility.calculate_credibility "ndrf reuters bbc say today" "" "" "").score ∨
      (Credibility.calculate_credibility ("ndrf reuters bbc say today" ++ "denied") "" "" "").score = 0) :=
  ⟨credibility_bounds_and_doubt_penalty.1 "ndrf reuters bbc say today" "" "" "",
   credibility_bounds_and_doubt_penalty.2 "ndrf reuters bbc say today" "" "" "" "denied"
     (by decide) (by decide) (by decide) (by decide) (by decide) (by decide)⟩

/-- Claim C4: `analyze_query` on "Help! Flooding in Mumbai!!" with no
inferred location returns urgency 10, sentiment panic, disaster type
flood and the emergency flag. -/
theorem analyze_query_help_flooding_mumbai :
    (Analyzer.analyze_query "Help! Flooding in Mumbai!!" none).urgency_score = 10 ∧
    (Analyzer.analyze_query "Help! Flooding in Mumbai!!" none).sentiment = "panic" ∧
    (Analyzer.analyze_query "Help! Flooding in Mumbai!!" none).disaster_type = some "flood" ∧
    (Analyzer.analyze_query "Help! Flooding in Mumbai!!" none).is_emergency = true := by
  decide

/-! Query analyzer: helper lemmas for urgency monotonicity. -/

namespace Analyzer

theorem analyze_query_urgency (q : String) (loc : Option String) :
    (analyze_query q loc).urgency_score = urgency_score q := rfl

theorem hasPanic_append {q : String} (r : String) (h : hasPanic q = true) :
    hasPanic (q ++ r) = true := by
  unfold hasPanic at h ⊢
  exact anyContains_lower_append r h

theorem hasUrgent_append {q : String} (r : String) (h : hasUrgent q = true) :
    hasUrgent (q ++ r) = true := by
  unfold hasUrgent at h ⊢
  exact anyContains_lower_append r h

theorem bangCount_le_append (q r : String) : bangCount q ≤ bangCount (q ++ r) := by
  unfold bangCount
  rw [data_append, List.count_append]
  omega

theorem keywordsFound_length_le (q r : String) :
    (keywordsFound q).length ≤ (keywordsFound (q ++ r)).length := by
  unfold keywordsFound
  rw [← List.countP_eq_length_filter, ← List.countP_eq_length_filter]
  apply List.countP_mono_left
  intro kw _ hkw
  exact strContains_lower_append r hkw

theorem urgencyBase_le_append (q r : String) : urgencyBase q ≤ urgencyBase (q ++ r) := by
  have hp : (if hasPanic q then (4 : Int) else 0)
      ≤ (if hasPanic (q ++ r) then (4 : Int) else 0) :=
    ite_le_ite_of_imp (by omega) (hasPanic_append r)
  have hu : (if hasUrgent q then (2 : Int) else 0)
      ≤ (if hasUrgent (q ++ r) then (2 : Int) else 0) :=
    ite_le_ite_of_imp (by omega) (hasUrgent_append r)
  have hb : (if 2 ≤ bangCount q then (1 : Int) else 0)
      ≤ (if 2 ≤ bangCount (q ++ r) then (1 : Int) else 0) := by
    have := bangCount_le_append q r
    split_ifs <;> omega
  have hk : (if 0 < (keywordsFound q).length then ((keywordsFound q).length : Int) else 0)
      ≤ (if 0 < (keywordsFound (q ++ r)).length
         then ((keywordsFound (q ++ r)).length : Int) else 0) := by
    have := keywordsFound_length_le q r
    split_ifs <;> omega
  unfold urgencyBase
  omega

end Analyzer

/-- Claim C6: the urgency score of `analyze_query` is always in
`[1, 10]`, and extending the query (which can only add panic or urgent
indicators, `!` occurrences and keyword hits while leaving the existing
ones in place) never decreases it. -/
theorem urgency_bounds_and_append_monotone :
    (∀ (q : String) (loc : Option String),
      1 ≤ (Analyzer.analyze_query q loc).urgency_score ∧
      (Analyzer.analyze_query q loc).urgency_score ≤ 10) ∧
    (∀ (q r : String) (loc : Option String),
      (Analyzer.analyze_query q loc).urgency_score
        ≤ (Analyzer.analyze_query (q ++ r) loc).urgency_score) := by
  constructor
  · intro q loc
    rw [Analyzer.analyze_query_urgency]
    unfold Analyzer.urgency_score
    omega
  · intro q r loc
    rw [Analyzer.analyze_query_urgency, Analyzer.analyze_query_urgency]
    unfold Analyzer.urgency_score
    have := Analyzer.urgencyBase_le_append q r
    omega

/-- Claim C7: a query whose stripped lower-casing has length at least 5,
matches no off-topic pattern and matches a technical/deployment pattern
is rejected with category off-topic, whatever else (in particular any
disaster keywords) it contains: the technical check is decided before
the keyword acceptance check ever runs. -/
theorem tech_pattern_rejection (q : String)
    (hlen : 5 ≤ (Guardrails.queryLower q).length)
    (hoff : Guardrails.matchesOffTopic (Guardrails.queryLower q) = false)
    (htech : Guardrails.matchesTechOrDev (Guardrails.queryLower q) = true) :
    Guardrails.validate_query q
      = ⟨false, Guardrails.techReason, "off_topic"⟩ := by
  unfold Guardrails.validate_query
  rw [if_neg (by omega), if_neg (by simp [hoff]), if_pos htech]

/-- Witness for C7: the query "flood alert docker setup" carries a
disaster keyword yet is rejected by the technical/deployment check. -/
theorem tech_pattern_rejection_witness :
    Guardrails.validate_query "flood alert docker setup"
      = ⟨false, Guardrails.techReason, "off_topic"⟩ :=
  tech_pattern_rejection "flood alert docker setup" (by decide) (by decide) (by decide)

set_option maxRecDepth 8192 in
/-- Claim C10: `validate_query` accepts exactly the queries it
classifies as disaster, its category is always one of disaster,
off-topic or unclear, and its reason is never empty. -/
theorem validate_query_category_invariants (q : String) :
    (Guardrails.validate_query q).is_valid
        = ((Guardrails.validate_query q).category == "disaster") ∧
    ((Guardrails.validate_query q).category = "disaster" ∨
      (Guardrails.validate_query q).category = "off_topic" ∨
      (Guardrails.validate_query q).category = "unclear") ∧
    0 < (Guardrails.validate_query q).reason.length := by
  unfold Guardrails.validate_query
  split_ifs <;> exact ⟨by decide, by decide, by decide⟩

/-! Human-review queue: helper lemmas. -/

namespace HumanReview

theorem save_snd (q loc : String) (u c : Int) (sid ts : String) (store : Store) :
    (save_for_human_review q loc u c sid ts store).2
      = store ++ [[sid, q, loc, toString u, toString c, ts, "pending", ""]] := rfl

theorem get_all_entries (store : Store) :
    (get_pending_reviews "all" store).entries = store := by
  unfold get_pending_reviews
  have h : ∀ row : List String,
      (("all" : String) == "all" || rowStatus row == "all") = true := fun _ => rfl
  simp only [h]
  exact List.filter_true store

end HumanReview

/-- Claim C8: updating the queue with a session id that matches no
stored row returns the error result with the not-found message and
leaves the store unchanged. -/
theorem update_missing_session_error (sid ns notes : String)
    (store : HumanReview.Store)
    (h : store.any (HumanReview.rowMatchesSid sid) = false) :
    HumanReview.update_review_status sid ns notes store
      = (⟨"error", s!"Session ID {sid} not found"⟩, store) := by
  unfold HumanReview.update_review_status
  rw [h]
  simp

/-- Witness for C8: updating a one-row store under a fresh session id
fails with the not-found message and keeps the row intact. -/
theorem update_missing_session_error_witness :
    HumanReview.update_review_status "IS-zz" "verified" "ok"
        [["IS-aa", "q", "l", "5", "45", "t", "pending", ""]]
      = (⟨"error", "Session ID IS-zz not found"⟩,
         [["IS-aa", "q", "l", "5", "45", "t", "pending", ""]]) := by
  rw [update_missing_session_error "IS-zz" "verified" "ok"
      [["IS-aa", "q", "l", "5", "45", "t", "pending", ""]] (by decide)]
  decide

/-- Claim C9: a row written by save and read back by listing with the
filter "all" reproduces the saved session id, query, location, urgency,
credibility and timestamp verbatim, with status pending and empty
reviewer notes; and an update under any other session id leaves that
row verbatim. -/
theorem save_list_roundtrip (q loc : String) (u c : Int) (sid ts : String)
    (store : HumanReview.Store) :
    (HumanReview.get_pending_reviews "all"
        (HumanReview.save_for_human_review q loc u c sid ts store).2).entries.getLast?
      = some [sid, q, loc, toString u, toString c, ts, "pending", ""] ∧
    (∀ sid2 ns notes : String, sid2 ≠ sid →
      (HumanReview.get_pending_reviews "all"
          (HumanReview.update_review_status sid2 ns notes
            (HumanReview.save_for_human_review q loc u c sid ts store).2).2).entries.getLast?
        = some [sid, q, loc, toString u, toString c, ts, "pending", ""]) := by
  constructor
  · rw [HumanReview.save_snd, HumanReview.get_all_entries]
    exact List.getLast?_concat _
  · intro sid2 ns notes hne
    have hrow : HumanReview.rowMatchesSid sid2
        [sid, q, loc, toString u, toString c, ts, "pending", ""] = false := by
      show (sid == sid2) = false
      exact beq_eq_false_iff_ne.mpr (fun hh => hne hh.symm)
    rw [HumanReview.save_snd]
    unfold HumanReview.update_review_status
    by_cases hfound :
        ((store ++ [[sid, q, loc, toString u, toString c, ts, "pending", ""]]).any
          (HumanReview.rowMatchesSid sid2)) = true
    · rw [if_pos hfound, HumanReview.get_all_entries, List.map_append]
      simp only [List.map_cons, List.map_nil, hrow, Bool.false_eq_true, if_false]
      exact List.getLast?_concat _
    · rw [if_neg hfound, HumanReview.get_all_entries]
      exact List.getLast?_concat _

/-- Witness for C9: a concrete save followed by a list and by an update
under a different session id. -/
theorem save_list_roundtrip_witness :
    (HumanReview.get_pending_reviews "all"
        (HumanReview.save_for_human_review "q0" "Chennai" 5 45
          "IS-00000001" "2026-10-12T00:00:00" []).2).entries.getLast?
      = some ["IS-00000001", "q0", "Chennai", "5", "45",
          "2026-10-12T00:00:00", "pending", ""] ∧
    (HumanReview.get_pending_reviews "all"
        (HumanReview.update_review_status "IS-xx" "verified" "n"
          (HumanReview.save_for_human_review "q0" "Chennai" 5 45
            "IS-00000001" "2026-10-12T00:00:00" []).2).2).entries.getLast?
      = some ["IS-00000001", "q0", "Chennai", "5", "45",
          "2026-10-12T00:00:00", "pending", ""] := by
  have h := save_list_roundtrip "q0" "Chennai" 5 45 "IS-00000001" "2026-10-12T00:00:00" []
  constructor
  · rw [h.1]
    decide
  · rw [h.2 "IS-xx" "verified" "n" (by decide)]
    decide

/-! Runner post-processing: helper lemmas. -/

namespace Runner

theorem multiAgentPostProcess_low {resp : String} (query sid ts : String)
    (store : HumanReview.Store) {s : Int}
    (hex : _extract_credibility_score resp = some s)
    (hlt : s < Config.CREDIBILITY_THRESHOLD) :
    multiAgentPostProcess true query resp sid ts store
      = (some ⟨sid, HumanReview.reviewTime (multiAgentUrgency query)⟩,
         store ++ [[sid, query, _extract_location query,
           toString (multiAgentUrgency query), toString s, ts, "pending", ""]]) := by
  unfold multiAgentPostProcess
  rw [hex]
  dsimp only
  rw [if_pos hlt]
  rfl

theorem multiAgentPostProcess_high {resp : String} (query sid ts : String)
    (store : HumanReview.Store) {s : Int}
    (hex : _extract_credibility_score resp = some s)
    (hge : Config.CREDIBILITY_THRESHOLD ≤ s) :
    multiAgentPostProcess true query resp sid ts store = (none, store) := by
  unfold multiAgentPostProcess
  rw [hex]
  dsimp only
  rw [if_neg (show ¬(s < Config.CREDIBILITY_THRESHOLD) by omega)]
  rfl

theorem multiAgentPostProcess_none {resp : String} (query sid ts : String)
    (store : HumanReview.Store)
    (hex : _extract_credibility_score resp = none) :
    multiAgentPostProcess true query resp sid ts store = (none, store) := by
  unfold multiAgentPostProcess
  rw [hex]

end Runner

/-- Claim C2: with human review enabled, a response whose extracted
credibility score is strictly below the threshold 60 makes the
post-processing call the queue save exactly once, appending exactly one
pending row; when the derived urgency estimate is 5 the returned review
time is "within 1 hour"; a score at or above 60, or no extractable
score, leaves the store unchanged. -/
theorem low_credibility_escalation (query resp sid ts : String)
    (store : HumanReview.Store) :
    (∀ s : Int, Runner._extract_credibility_score resp = some s →
      s < Config.CREDIBILITY_THRESHOLD →
      (Runner.multiAgentPostProcess true query resp sid ts store).2
          = store ++ [[sid, query, Runner._extract_location query,
              toString (Runner.multiAgentUrgency query), toString s, ts, "pending", ""]] ∧
        (Runner.multiAgentUrgency query = 5 →
          (Runner.multiAgentPostProcess true query resp sid ts store).1
            = some ⟨sid, "within 1 hour"⟩)) ∧
    (∀ s : Int, Runner._extract_credibility_score resp = some s →
      Config.CREDIBILITY_THRESHOLD ≤ s →
      (Runner.multiAgentPostProcess true query resp sid ts store).2 = store) ∧
    (Runner._extract_credibility_score resp = none →
      (Runner.multiAgentPostProcess true query resp sid ts store).2 = store) := by
  refine ⟨?_, ?_, ?_⟩
  · intro s hex hlt
    rw [Runner.multiAgentPostProcess_low query sid ts store hex hlt]
    refine ⟨rfl, ?_⟩
    intro hu
    rw [hu]
    rfl
  · intro s hex hge
    rw [Runner.multiAgentPostProcess_high query sid ts store hex hge]
  · intro hex
    rw [Runner.multiAgentPostProcess_none query sid ts store hex]

/-- Witness for C2: a concrete response with extracted score 45 below
the threshold appends exactly one pending row and reports the one-hour
review time for the derived urgency 5. -/
theorem low_credibility_escalation_witness :
    Runner._extract_credibility_score "Credibility Score | 45/100" = some 45 ∧
    (Runner.multiAgentPostProcess true "Is there flooding in Chennai?"
        "Credibility Score | 45/100" "IS-ab12cd34" "2026-10-12T00:00:00" []).2
      = [["IS-ab12cd34", "Is there flooding in Chennai?", "Chennai", "5", "45",
          "2026-10-12T00:00:00", "pending", ""]] ∧
    (Runner.multiAgentPostProcess true "Is there flooding in Chennai?"
        "Credibility Score | 45/100" "IS-ab12cd34" "2026-10-12T00:00:00" []).1
      = some ⟨"IS-ab12cd34", "within 1 hour"⟩ := by
  have hex : Runner._extract_credibility_score "Credibility Score | 45/100" = some 45 := by
    decide
  have h := (low_credibility_escalation "Is there flooding in Chennai?"
      "Credibility Score | 45/100" "IS-ab12cd34" "2026-10-12T00:00:00" []).1 45 hex
      (by decide)
  refine ⟨hex, ?_, ?_⟩
  · rw [h.1]
    decide
  · rw [h.2 (by decide)]

/-- Claim C3 (counterexample): in the multi-agent runner the urgency
estimate is derived from the keywords emergency, help, urgent only, so
the query "trapped under debris in Chennai" — which contains the
claimed keyword "trapped" — is escalated with urgency 5, not 8. -/
theorem urgency_keyword_claim_counterexample :
    strContains (lowerStr "trapped under debris in Chennai") "trapped" = true ∧
    Runner.multiAgentUrgency "trapped under debris in Chennai" = 5 ∧
    (Runner.multiAgentPostProcess true "trapped under debris in Chennai"
        "Credibility Score | 45/100" "IS-00000000" "2026-10-12T00:00:00" []).2
      = [["IS-00000000", "trapped under debris in Chennai", "Chennai", "5", "45",
          "2026-10-12T00:00:00", "pending", ""]] := by
  decide

/-- Claim C3 (amended): the single-agent runner of `agent.py` derives
urgency 8 exactly when one of emergency, urgent, help, trapped, sos
occurs in the lower-cased query, and 5 otherwise; the multi-agent
runner of `agents/runner.py` checks only emergency, help, urgent, so
queries whose only urgent keyword is trapped or sos get 5 there. -/
theorem urgency_estimate_characterization (q : String) :
    (Runner.singleRunnerUrgency q = 8 ∨ Runner.singleRunnerUrgency q = 5) ∧
    (Runner.singleRunnerUrgency q = 8 ↔
      ∃ kw ∈ (["emergency", "urgent", "help", "trapped", "sos"] : List String),
        strContains (lowerStr q) kw = true) ∧
    (Runner.multiAgentUrgency q = 8 ↔
      ∃ kw ∈ (["emergency", "help", "urgent"] : List String),
        strContains (lowerStr q) kw = true) := by
  unfold Runner.singleRunnerUrgency Runner.multiAgentUrgency
  unfold Runner.singleRunnerUrgencyKeywords Runner.multiAgentUrgencyKeywords
  refine ⟨?_, ?_, ?_⟩
  · split_ifs <;> simp
  · split_ifs with h
    · exact ⟨fun _ => List.any_eq_true.mp h, fun _ => rfl⟩
    · constructor
      · intro habs
        omega
      · intro hexi
        exact absurd (List.any_eq_true.mpr hexi) h
  · split_ifs with h
    · exact ⟨fun _ => List.any_eq_true.mp h, fun _ => rfl⟩
    · constructor
      · intro habs
        omega
      · intro hexi
        exact absurd (List.any_eq_true.mpr hexi) h

/-- Witness for the amended C3 at concrete queries. -/
theorem urgency_estimate_characterization_witness :
    Runner.singleRunnerUrgency "trapped in Chennai" = 8 ∧
    Runner.multiAgentUrgency "help flooding" = 8 :=
  ⟨(urgency_estimate_characterization "trapped in Chennai").2.1.mpr
     ⟨"trapped", by decide, by decide⟩,
   (urgency_estimate_characterization "help flooding").2.2.mpr
     ⟨"help", by decide, by decide⟩⟩

end InfoShield
